import Mathlib

/-!
Verification of the OGRE compositor layer sources.

Part 1 embeds `RenderSystems/GLES2/src/OgreGLES2FrameBufferObject.cpp`
(the colour-attachment state machine of `GLES2FrameBufferObject`:
`bindSurface`, `unbindSurface`, `initialise`).

Part 2 embeds the `CompositorManager2` interface declared in
`OgreMain/include/Compositor/OgreCompositorManager2.h`.  Only the header is in
the repository excerpt, so the method bodies are modelled from the spec; each
such definition carries a doc comment starting `Modelled from the spec:`.
-/

/-- A GL hardware pixel buffer, reduced to the stats
`GLES2FrameBufferObject::initialise` reads from it: `getWidth()`, `getHeight()`
and `getGLFormat()`. -/
structure GLPixelBuffer where
  width : Nat
  height : Nat
  glFormat : Nat
deriving DecidableEq, Repr

/-- One colour-attachment slot of the FBO (`GLSurfaceDesc`).  A null `buffer`
pointer (`buffer == 0` in the source) is modelled as `none`; `zoffset` is kept
as declared. -/
structure GLSurfaceDesc where
  buffer : Option GLPixelBuffer
  zoffset : Nat
deriving DecidableEq, Repr

/-- The all-zero surface descriptor used as the out-of-range default. -/
def nullSurface : GLSurfaceDesc := { buffer := none, zoffset := 0 }

def OGRE_MAX_MULTIPLE_RENDER_TARGETS : Nat := 8

/-- State of `GLES2FrameBufferObject`: the `mColour` attachment array of length
`OGRE_MAX_MULTIPLE_RENDER_TARGETS`.  The GL object handles (`mFB`,
`mMultisampleFB`, contexts, depth/stencil buffers) are driver-side state the
checks never read, so they are not part of the model. -/
structure GLES2FrameBufferObject where
  mColour : List GLSurfaceDesc
deriving DecidableEq, Repr

/-- The exceptions `GLES2FrameBufferObject::initialise` raises from its own
checks (all thrown as `Exception::ERR_INVALIDPARAMS`).  The final
`glCheckFramebufferStatus` check reports driver state and is outside the
model. -/
inductive FboError where
  | attachment0Missing
  | incompatibleSize (attachment : Nat)
  | incompatibleFormat (attachment : Nat)
deriving DecidableEq, Repr

/-- The attachment loop of `GLES2FrameBufferObject::initialise`
(`for(unsigned int x = 0; x < maxSupportedMRTs; ++x)`): every bound attachment
is compared against surface 0's width, height and GL format; the GL
attach/detach calls are driver effects and are dropped.  `x` is the loop
counter, `fuel` the remaining iterations (`maxSupportedMRTs - x`). -/
def checkAttachmentsFrom (colour : List GLSurfaceDesc) (width height format : Nat) :
    Nat → Nat → Except FboError Unit
  | _, 0 => Except.ok ()
  | x, fuel + 1 =>
    match (colour.getD x nullSurface).buffer with
    | some buf =>
      if buf.width ≠ width ∨ buf.height ≠ height then
        Except.error (FboError.incompatibleSize x)
      else if buf.glFormat ≠ format then
        Except.error (FboError.incompatibleFormat x)
      else
        checkAttachmentsFrom colour width height format (x + 1) fuel
    | none => checkAttachmentsFrom colour width height format (x + 1) fuel

/-- Embeds `GLES2FrameBufferObject::initialise`: throws `ERR_INVALIDPARAMS` if
attachment 0 has no surface, then runs the compatibility loop over the first
`maxSupportedMRTs` slots, where `maxSupportedMRTs` is
`rs->getCapabilities()->getNumMultiRenderTargets()`. -/
def initialise (fbo : GLES2FrameBufferObject) (maxSupportedMRTs : Nat) :
    Except FboError Unit :=
  match (fbo.mColour.getD 0 nullSurface).buffer with
  | none => Except.error FboError.attachment0Missing
  | some buf0 =>
    checkAttachmentsFrom fbo.mColour buf0.width buf0.height buf0.glFormat 0 maxSupportedMRTs

/-- Embeds `GLES2FrameBufferObject::bindSurface`: stores the surface in
`mColour[attachment]` and re-initialises only if `mColour[0].buffer` is set
afterwards.  The second component records whether `initialise` ran and, if so,
its outcome (`none` means it was not invoked). -/
def bindSurface (fbo : GLES2FrameBufferObject) (attachment : Nat) (target : GLSurfaceDesc)
    (maxSupportedMRTs : Nat) : GLES2FrameBufferObject × Option (Except FboError Unit) :=
  if (((fbo.mColour.set attachment target).getD 0 nullSurface).buffer).isSome then
    (⟨fbo.mColour.set attachment target⟩,
      some (initialise ⟨fbo.mColour.set attachment target⟩ maxSupportedMRTs))
  else
    (⟨fbo.mColour.set attachment target⟩, none)

/-- Embeds `GLES2FrameBufferObject::unbindSurface`: clears
`mColour[attachment].buffer` and re-initialises only if `mColour[0].buffer` is
still set. -/
def unbindSurface (fbo : GLES2FrameBufferObject) (attachment : Nat)
    (maxSupportedMRTs : Nat) : GLES2FrameBufferObject × Option (Except FboError Unit) :=
  if (((fbo.mColour.set attachment
          { buffer := none,
            zoffset := (fbo.mColour.getD attachment nullSurface).zoffset }).getD 0
            nullSurface).buffer).isSome then
    (⟨fbo.mColour.set attachment
        { buffer := none, zoffset := (fbo.mColour.getD attachment nullSurface).zoffset }⟩,
      some (initialise
        ⟨fbo.mColour.set attachment
          { buffer := none,
            zoffset := (fbo.mColour.getD attachment nullSurface).zoffset }⟩ maxSupportedMRTs))
  else
    (⟨fbo.mColour.set attachment
        { buffer := none, zoffset := (fbo.mColour.getD attachment nullSurface).zoffset }⟩,
      none)

/-- Slot `x` agrees with the stats of surface 0 (vacuously if unbound). -/
def compatibleAt (colour : List GLSurfaceDesc) (width height format x : Nat) : Prop :=
  ∀ buf, (colour.getD x nullSurface).buffer = some buf →
    buf.width = width ∧ buf.height = height ∧ buf.glFormat = format

/-- Concrete FBO refuting C8 as stated: attachment 0 is 4x4, attachment 1 is a
bound 8x8 surface. -/
def fboMismatched : GLES2FrameBufferObject :=
  ⟨[{ buffer := some { width := 4, height := 4, glFormat := 1 }, zoffset := 0 },
    { buffer := some { width := 8, height := 8, glFormat := 1 }, zoffset := 0 },
    nullSurface, nullSurface, nullSurface, nullSurface, nullSurface, nullSurface]⟩

/-- Modelled from the spec: `IdString`, an interned hashed name.  Equality is
by hash, with collisions treated as deliberate equality, so the interned id is
modelled as a bare `Nat`. -/
abbrev IdString := Nat

/-- Modelled from the spec: association-list lookup implementing the
`map<IdString, T>` definition containers of `CompositorManager2` (the map
implementation is not part of the excerpt). -/
def mapLookup {α : Type} : List (IdString × α) → IdString → Option α
  | [], _ => none
  | (k, v) :: rest, k2 => if k = k2 then some v else mapLookup rest k2

/-- Modelled from the spec: `CompositorNodeDef` (its header is not in the
excerpt), restricted to what the claims need — interned name, declared
input/output channel names and local-texture names, kept as the raw strings
whose prefix the validation rule inspects. -/
structure CompositorNodeDef where
  name : IdString
  inputChannels : List String
  outputChannels : List String
  localTextures : List String
deriving DecidableEq, Repr

/-- Modelled from the spec: `CompositorShadowNodeDef` — a node definition with
no input channels (the absence of the field makes inputs structurally
impossible, as the spec requires). -/
structure CompositorShadowNodeDef where
  name : IdString
  outputChannels : List String
  localTextures : List String
deriving DecidableEq, Repr

/-- Modelled from the spec: one connection of a workspace definition — source
node and output channel index to destination node and input channel index. -/
structure CompositorConnection where
  srcNode : IdString
  srcChannel : Nat
  dstNode : IdString
  dstChannel : Nat
deriving DecidableEq, Repr

/-- Modelled from the spec: `CompositorWorkspaceDef` — name, declared node
definitions and the ordered connection list. -/
structure CompositorWorkspaceDef where
  name : IdString
  nodes : List IdString
  connections : List CompositorConnection
deriving DecidableEq, Repr

/-- Modelled from the spec: a live `CompositorWorkspace` instance — its
definition name, the execution order cached at build time (a topological sort
of the connection graph), the final render target handle and the enabled
flag. -/
structure CompositorWorkspace where
  defName : IdString
  execOrder : List IdString
  finalTarget : Nat
  enabled : Bool
deriving DecidableEq, Repr

/-- Error taxonomy of the spec for the operations the claims touch. -/
inductive CompositorError where
  | duplicateName
  | notFound
  | reservedName
  | validationError
  | cyclicGraphError
deriving DecidableEq, Repr

/-- State of `CompositorManager2` as declared in the header: the three
definition maps, the unfinished-shadow-node list, the live workspaces, the
frame counter and the null-shadow-texture pool (`mNullTextureList`, keyed here
by pixel format with the texture handle it pooled; `nextTextureHandle` stands
for the allocator of fresh GPU texture handles). -/
structure CompositorManager2 where
  mNodeDefinitions : List (IdString × CompositorNodeDef)
  mShadowNodeDefs : List (IdString × CompositorShadowNodeDef)
  mUnfinishedShadowNodes : List IdString
  mWorkspaceDefs : List (IdString × CompositorWorkspaceDef)
  mWorkspaces : List CompositorWorkspace
  mFrameCount : Nat
  mNullTextureList : List (Nat × Nat)
  nextTextureHandle : Nat
deriving DecidableEq, Repr

/-- Modelled from the spec: a node is ready for execution when no connection
feeds it from a node that has not executed yet (no incoming edge from
`remaining`). -/
def readyNode (remaining : List IdString) (edges : List (IdString × IdString))
    (n : IdString) : Bool :=
  decide (∀ e ∈ edges, ¬(e.2 = n ∧ e.1 ∈ remaining))

/-- Modelled from the spec: the topological sort a workspace build performs on
the connection graph (the `CompositorWorkspace` build code is not in the
excerpt).  Repeatedly emits a ready node; returns `none` when stuck on a
cyclic rest. -/
def topoSortAux (edges : List (IdString × IdString)) :
    Nat → List IdString → Option (List IdString)
  | 0, remaining => if remaining.isEmpty then some [] else none
  | fuel + 1, remaining =>
    if remaining.isEmpty then some []
    else
      match remaining.find? (readyNode remaining edges) with
      | none => none
      | some n => (topoSortAux edges fuel (remaining.erase n)).map (fun ord => n :: ord)

/-- Modelled from the spec: topological sort of the declared nodes along the
connection edges. -/
def topoSort (nodes : List IdString) (edges : List (IdString × IdString)) :
    Option (List IdString) :=
  topoSortAux edges nodes.length nodes

/-- Projection of a connection list to its node-to-node dependency edges. -/
def connectionEdges (conns : List CompositorConnection) : List (IdString × IdString) :=
  conns.map (fun c => (c.srcNode, c.dstNode))

/-- Modelled from the spec: building a workspace instance from its definition
(the build code is not in the excerpt).  A cyclic connection graph is a
configuration error reported as `CyclicGraphError`; connections must reference
declared nodes; on success the topological execution order is cached in the
instance. -/
def buildWorkspace (wdef : CompositorWorkspaceDef) (finalRenderTarget : Nat)
    (bEnabled : Bool) : Except CompositorError CompositorWorkspace :=
  match topoSort wdef.nodes (connectionEdges wdef.connections) with
  | none => Except.error CompositorError.cyclicGraphError
  | some ord =>
    if wdef.connections.all
        (fun c => decide (c.srcNode ∈ wdef.nodes ∧ c.dstNode ∈ wdef.nodes)) then
      Except.ok { defName := wdef.name, execOrder := ord,
                  finalTarget := finalRenderTarget, enabled := bEnabled }
    else Except.error CompositorError.validationError

/-- Modelled from the spec: `CompositorManager2::addWorkspace` (body not in
the excerpt).  Looks up the workspace definition, builds the instance, and
appends it to `mWorkspaces`; a build failure creates no partial instance and
leaves the workspace list unchanged. -/
def addWorkspace (s : CompositorManager2) (finalRenderTarget : Nat)
    (definitionName : IdString) (bEnabled : Bool) :
    CompositorManager2 × Except CompositorError CompositorWorkspace :=
  match mapLookup s.mWorkspaceDefs definitionName with
  | none => (s, Except.error CompositorError.notFound)
  | some wdef =>
    match buildWorkspace wdef finalRenderTarget bEnabled with
    | Except.error e => (s, Except.error e)
    | Except.ok ws =>
      ({ s with mWorkspaces := s.mWorkspaces ++ [ws] }, Except.ok ws)

/-- Modelled from the spec: the per-frame execution a workspace contributes —
its cached topological order when enabled, nothing when disabled. -/
def updateWorkspace (ws : CompositorWorkspace) : List IdString :=
  if ws.enabled then ws.execOrder else []

/-- Modelled from the spec: `CompositorManager2::_update` (body not in the
excerpt) increments the frame counter and updates every workspace in insertion
order.  The second component is the frame's execution trace: one node sequence
per workspace, empty for disabled ones. -/
def _update (s : CompositorManager2) : CompositorManager2 × List (List IdString) :=
  ({ s with mFrameCount := s.mFrameCount + 1 }, s.mWorkspaces.map updateWorkspace)

/-- Modelled from the spec: the de-duplication accumulator of
`_swapAllFinalTargets` — `seen` holds the targets already swapped this
frame. -/
def swapTargetsAux : List Nat → List Nat → List Nat
  | _, [] => []
  | seen, t :: rest =>
    if t ∈ seen then swapTargetsAux seen rest
    else t :: swapTargetsAux (t :: seen) rest

/-- Modelled from the spec: `CompositorManager2::_swapAllFinalTargets` (body
not in the excerpt) swaps every distinct final render target of the live
workspaces exactly once; the result lists the targets in the order they are
swapped. -/
def _swapAllFinalTargets (s : CompositorManager2) : List Nat :=
  swapTargetsAux [] (s.mWorkspaces.map (fun ws => ws.finalTarget))

/-- Inline body from the header: `getFrameCount` returns `mFrameCount`. -/
def getFrameCount (s : CompositorManager2) : Nat := s.mFrameCount

/-- Modelled from the spec: `CompositorManager2::removeAllWorkspaces` (body
not in the excerpt) destroys all live workspace instances. -/
def removeAllWorkspaces (s : CompositorManager2) : CompositorManager2 :=
  { s with mWorkspaces := [] }

/-- Modelled from the spec: `CompositorManager2::getNullShadowTexture` (body
not in the excerpt) — the null shadow texture for a pixel format is created
lazily at most once, pooled in `mNullTextureList` and shared thereafter. -/
def getNullShadowTexture (s : CompositorManager2) (format : Nat) :
    CompositorManager2 × Nat :=
  match mapLookup s.mNullTextureList format with
  | some tex => (s, tex)
  | none =>
    ({ s with
        mNullTextureList := s.mNullTextureList ++ [(format, s.nextTextureHandle)],
        nextTextureHandle := s.nextTextureHandle + 1 },
     s.nextTextureHandle)

/-- Modelled from the spec: the fresh node definition
`CompositorManager2::addNodeDefinition` creates for a name. -/
def newNodeDef (name : IdString) : CompositorNodeDef :=
  { name := name, inputChannels := [], outputChannels := [], localTextures := [] }

/-- Modelled from the spec: the fresh shadow node definition
`addShadowNodeDefinition` creates for a name. -/
def newShadowNodeDef (name : IdString) : CompositorShadowNodeDef :=
  { name := name, outputChannels := [], localTextures := [] }

/-- Modelled from the spec: the fresh workspace definition
`addWorkspaceDefinition` creates for a name. -/
def newWorkspaceDef (name : IdString) : CompositorWorkspaceDef :=
  { name := name, nodes := [], connections := [] }

/-- Modelled from the spec: `CompositorManager2::addNodeDefinition` (body not
in the excerpt) — the name must be unique in `mNodeDefinitions`, throws
`DuplicateNameError` otherwise; on success returns the updated manager and the
definition it stored. -/
def addNodeDefinition (s : CompositorManager2) (name : IdString) :
    Except CompositorError (CompositorManager2 × CompositorNodeDef) :=
  match mapLookup s.mNodeDefinitions name with
  | some _ => Except.error CompositorError.duplicateName
  | none =>
    Except.ok
      ({ s with mNodeDefinitions := s.mNodeDefinitions ++ [(name, newNodeDef name)] },
       newNodeDef name)

/-- Modelled from the spec: `CompositorManager2::getNodeDefinition` (body not
in the excerpt) — throws `NotFoundError` if absent. -/
def getNodeDefinition (s : CompositorManager2) (name : IdString) :
    Except CompositorError CompositorNodeDef :=
  match mapLookup s.mNodeDefinitions name with
  | some d => Except.ok d
  | none => Except.error CompositorError.notFound

/-- Modelled from the spec: `CompositorManager2::addShadowNodeDefinition`
(body not in the excerpt); freshly added shadow node definitions are also
tracked in `mUnfinishedShadowNodes` until finalized. -/
def addShadowNodeDefinition (s : CompositorManager2) (name : IdString) :
    Except CompositorError (CompositorManager2 × CompositorShadowNodeDef) :=
  match mapLookup s.mShadowNodeDefs name with
  | some _ => Except.error CompositorError.duplicateName
  | none =>
    Except.ok
      ({ s with
          mShadowNodeDefs := s.mShadowNodeDefs ++ [(name, newShadowNodeDef name)],
          mUnfinishedShadowNodes := s.mUnfinishedShadowNodes ++ [name] },
       newShadowNodeDef name)

/-- Modelled from the spec: `CompositorManager2::getShadowNodeDefinition`
(body not in the excerpt). -/
def getShadowNodeDefinition (s : CompositorManager2) (name : IdString) :
    Except CompositorError CompositorShadowNodeDef :=
  match mapLookup s.mShadowNodeDefs name with
  | some d => Except.ok d
  | none => Except.error CompositorError.notFound

/-- Modelled from the spec: `CompositorManager2::addWorkspaceDefinition` (body
not in the excerpt). -/
def addWorkspaceDefinition (s : CompositorManager2) (name : IdString) :
    Except CompositorError (CompositorManager2 × CompositorWorkspaceDef) :=
  match mapLookup s.mWorkspaceDefs name with
  | some _ => Except.error CompositorError.duplicateName
  | none =>
    Except.ok
      ({ s with mWorkspaceDefs := s.mWorkspaceDefs ++ [(name, newWorkspaceDef name)] },
       newWorkspaceDef name)

/-- Modelled from the spec: `CompositorManager2::getWorkspaceDefinition` (body
not in the excerpt). -/
def getWorkspaceDefinition (s : CompositorManager2) (name : IdString) :
    Except CompositorError CompositorWorkspaceDef :=
  match mapLookup s.mWorkspaceDefs name with
  | some d => Except.ok d
  | none => Except.error CompositorError.notFound

/-- Modelled from the spec: a declared name is reserved when it begins with
the `"global_"` prefix (prefix test on the raw characters). -/
def isReservedName (n : String) : Bool := "global_".data.isPrefixOf n.data

/-- All names a node definition declares: local textures and input/output
channels. -/
def declaredNames (d : CompositorNodeDef) : List String :=
  d.localTextures ++ d.inputChannels ++ d.outputChannels

/-- Modelled from the spec: definition-time validation of the reserved-name
rule (the validation code is not in the excerpt) — declaring any local texture
or channel whose name carries the `"global_"` prefix throws
`ReservedNameError`. -/
def validateNodeDefNames (d : CompositorNodeDef) : Except CompositorError Unit :=
  if (declaredNames d).any isReservedName then
    Except.error CompositorError.reservedName
  else Except.ok ()

/-- Empty manager state used by the concrete witness instances. -/
def emptyMgr : CompositorManager2 :=
  { mNodeDefinitions := [], mShadowNodeDefs := [], mUnfinishedShadowNodes := [],
    mWorkspaceDefs := [], mWorkspaces := [], mFrameCount := 0,
    mNullTextureList := [], nextTextureHandle := 0 }

/-- Workspace definition with connections 1 → 2 → 3, the acyclic witness. -/
def wdefABC : CompositorWorkspaceDef :=
  { name := 10, nodes := [1, 2, 3],
    connections := [{ srcNode := 1, srcChannel := 0, dstNode := 2, dstChannel := 0 },
                    { srcNode := 2, srcChannel := 0, dstNode := 3, dstChannel := 0 }] }

/-- Manager holding `wdefABC` under name 10. -/
def mgrABC : CompositorManager2 := { emptyMgr with mWorkspaceDefs := [(10, wdefABC)] }

/-- The workspace instance `addWorkspace` builds from `wdefABC`. -/
def wsABC : CompositorWorkspace :=
  { defName := 10, execOrder := [1, 2, 3], finalTarget := 0, enabled := true }

/-- Manager state after adding the `wdefABC` workspace. -/
def mgrABC2 : CompositorManager2 := { mgrABC with mWorkspaces := [wsABC] }

/-- Workspace definition with the 2-cycle 1 → 2 → 1. -/
def wdefCyc : CompositorWorkspaceDef :=
  { name := 11, nodes := [1, 2],
    connections := [{ srcNode := 1, srcChannel := 0, dstNode := 2, dstChannel := 0 },
                    { srcNode := 2, srcChannel := 0, dstNode := 1, dstChannel := 0 }] }

/-- Manager holding `wdefCyc` under name 11. -/
def mgrCyc : CompositorManager2 := { emptyMgr with mWorkspaceDefs := [(11, wdefCyc)] }

/-- First of two live workspaces sharing final render target 5. -/
def wsShare1 : CompositorWorkspace :=
  { defName := 1, execOrder := [], finalTarget := 5, enabled := true }

/-- Second of two live workspaces sharing final render target 5. -/
def wsShare2 : CompositorWorkspace :=
  { defName := 2, execOrder := [], finalTarget := 5, enabled := true }

/-- Manager with two live workspaces that share final target 5. -/
def mgrShare : CompositorManager2 := { emptyMgr with mWorkspaces := [wsShare1, wsShare2] }

/-- Node definition declaring the reserved local texture name
`"global_myRT"`. -/
def nodeDefGlobalTex : CompositorNodeDef :=
  { name := 1, inputChannels := [], outputChannels := [],
    localTextures := ["global_myRT"] }

/-- Manager already holding name 7 in all three definition maps. -/
def mgrDefs : CompositorManager2 :=
  { emptyMgr with
    mNodeDefinitions := [(7, newNodeDef 7)],
    mShadowNodeDefs := [(7, newShadowNodeDef 7)],
    mWorkspaceDefs := [(7, newWorkspaceDef 7)] }

theorem forall_lt_succ_shift (P : Nat → Prop) (x fuel : Nat) :
    (∀ i < fuel + 1, P (x + i)) ↔ P x ∧ ∀ i < fuel, P (x + 1 + i) := by
  constructor
  · intro h
    refine ⟨by simpa using h 0 (Nat.succ_pos _), fun i hi => ?_⟩
    have hx : x + 1 + i = x + (i + 1) := by omega
    rw [hx]
    exact h (i + 1) (Nat.succ_lt_succ hi)
  · rintro ⟨h0, h⟩ i hi
    cases i with
    | zero => simpa using h0
    | succ j =>
      have hx : x + (j + 1) = x + 1 + j := by omega
      rw [hx]
      exact h j (Nat.lt_of_succ_lt_succ hi)

theorem checkAttachmentsFrom_ok_iff (colour : List GLSurfaceDesc) (width height format : Nat) :
    ∀ fuel x, checkAttachmentsFrom colour width height format x fuel = Except.ok () ↔
      ∀ i < fuel, compatibleAt colour width height format (x + i) := by
  intro fuel
  induction fuel with
  | zero =>
    intro x
    simp [checkAttachmentsFrom]
  | succ fuel ih =>
    intro x
    rw [forall_lt_succ_shift]
    cases hb : (colour.getD x nullSurface).buffer with
    | none =>
      have hstep : checkAttachmentsFrom colour width height format x (fuel + 1)
          = checkAttachmentsFrom colour width height format (x + 1) fuel := by
        simp only [checkAttachmentsFrom, hb]
      have hcompat : compatibleAt colour width height format x := by
        intro buf hbuf
        rw [hb] at hbuf
        cases hbuf
      rw [hstep, ih]
      exact ⟨fun h => ⟨hcompat, h⟩, fun h => h.2⟩
    | some buf =>
      by_cases hw : buf.width ≠ width ∨ buf.height ≠ height
      · have hstep : checkAttachmentsFrom colour width height format x (fuel + 1)
            = Except.error (FboError.incompatibleSize x) := by
          simp only [checkAttachmentsFrom, hb, if_pos hw]
        rw [hstep]
        apply iff_of_false
        · intro h
          exact Except.noConfusion h
        · rintro ⟨hc, -⟩
          rcases hc buf hb with ⟨h1, h2, -⟩
          rcases hw with hw | hw
          · exact hw h1
          · exact hw h2
      · by_cases hf : buf.glFormat ≠ format
        · have hstep : checkAttachmentsFrom colour width height format x (fuel + 1)
              = Except.error (FboError.incompatibleFormat x) := by
            simp only [checkAttachmentsFrom, hb, if_neg hw, if_pos hf]
          rw [hstep]
          apply iff_of_false
          · intro h
            exact Except.noConfusion h
          · rintro ⟨hc, -⟩
            exact hf (hc buf hb).2.2
        · push_neg at hw hf
          have hstep : checkAttachmentsFrom colour width height format x (fuel + 1)
              = checkAttachmentsFrom colour width height format (x + 1) fuel := by
            simp only [checkAttachmentsFrom, hb]
            rw [if_neg, if_neg]
            · simpa using hf
            · simpa using And.intro hw.1 hw.2
          have hcompat : compatibleAt colour width height format x := by
            intro buf2 hbuf2
            rw [hb] at hbuf2
            cases hbuf2
            exact ⟨hw.1, hw.2, hf⟩
          rw [hstep, ih]
          exact ⟨fun h => ⟨hcompat, h⟩, fun h => h.2⟩

theorem checkAttachmentsFrom_ne_missing (colour : List GLSurfaceDesc)
    (width height format : Nat) :
    ∀ fuel x, checkAttachmentsFrom colour width height format x fuel ≠
      Except.error FboError.attachment0Missing := by
  intro fuel
  induction fuel with
  | zero =>
    intro x h
    simp [checkAttachmentsFrom] at h
  | succ fuel ih =>
    intro x h
    simp only [checkAttachmentsFrom] at h
    split at h
    · split at h
      · simp at h
      · split at h
        · simp at h
        · exact ih (x + 1) h
    · exact ih (x + 1) h

theorem getD_zero_set_of_ne (l : List GLSurfaceDesc) (a : Nat) (v d : GLSurfaceDesc)
    (ha : a ≠ 0) : (l.set a v).getD 0 d = l.getD 0 d := by
  cases a with
  | zero => exact absurd rfl ha
  | succ n =>
    cases l with
    | nil => rfl
    | cons x xs => rfl

/-- C8 (amended): with colour attachment 0 bound, `initialise` succeeds exactly
when every bound colour attachment at a slot below the render system's
supported MRT count matches attachment 0's width, height and format; and under
that hypothesis it never reports the missing-attachment-0 error (any failure is
a size or format incompatibility). -/
theorem fbo_initialise_compat_iff (fbo : GLES2FrameBufferObject) (maxSupportedMRTs : Nat)
    (buf0 : GLPixelBuffer)
    (h0 : (fbo.mColour.getD 0 nullSurface).buffer = some buf0) :
    (initialise fbo maxSupportedMRTs = Except.ok () ↔
      ∀ x < maxSupportedMRTs,
        compatibleAt fbo.mColour buf0.width buf0.height buf0.glFormat x) ∧
    initialise fbo maxSupportedMRTs ≠ Except.error FboError.attachment0Missing := by
  have hinit : initialise fbo maxSupportedMRTs =
      checkAttachmentsFrom fbo.mColour buf0.width buf0.height buf0.glFormat 0
        maxSupportedMRTs := by
    simp only [initialise, h0]
  rw [hinit]
  refine ⟨?_, checkAttachmentsFrom_ne_missing _ _ _ _ _ _⟩
  rw [checkAttachmentsFrom_ok_iff]
  simp

/-- Witness for `fbo_initialise_compat_iff` at a concrete one-attachment FBO. -/
theorem fbo_initialise_compat_iff_witness :
    initialise ⟨[{ buffer := some { width := 4, height := 4, glFormat := 1 }, zoffset := 0 }]⟩ 8
      ≠ Except.error FboError.attachment0Missing :=
  (fbo_initialise_compat_iff
    ⟨[{ buffer := some { width := 4, height := 4, glFormat := 1 }, zoffset := 0 }]⟩ 8
    { width := 4, height := 4, glFormat := 1 } rfl).2

/-- C8 counterexample: on a render system reporting only 1 supported MRT, the
loop in `initialise` stops before slot 1, so `initialise` succeeds even though
bound attachment 1 differs from attachment 0 in width and height. -/
theorem fbo_initialise_skips_unsupported_slots :
    (fboMismatched.mColour.getD 0 nullSurface).buffer
        = some { width := 4, height := 4, glFormat := 1 } ∧
    ¬ compatibleAt fboMismatched.mColour 4 4 1 1 ∧
    initialise fboMismatched 1 = Except.ok () :=
  ⟨rfl,
   fun h => absurd (h { width := 8, height := 8, glFormat := 1 } rfl).1 (by decide),
   rfl⟩

/-- C10: colour attachment slot 0 is special: `initialise` throws the
invalid-parameters error whenever slot 0 has no bound surface; `bindSurface`
and `unbindSurface` invoke `initialise` only when slot 0 is bound after the
change; and touching a nonzero slot while slot 0 is empty invokes no
re-initialisation and raises no error. -/
theorem fbo_attachment0_special :
    (∀ (fbo : GLES2FrameBufferObject) (m : Nat),
      (fbo.mColour.getD 0 nullSurface).buffer = none →
        initialise fbo m = Except.error FboError.attachment0Missing) ∧
    (∀ (fbo : GLES2FrameBufferObject) (a : Nat) (t : GLSurfaceDesc) (m : Nat),
      ((bindSurface fbo a t m).2).isSome = true →
        ((((bindSurface fbo a t m).1).mColour.getD 0 nullSurface).buffer).isSome = true) ∧
    (∀ (fbo : GLES2FrameBufferObject) (a m : Nat),
      ((unbindSurface fbo a m).2).isSome = true →
        ((((unbindSurface fbo a m).1).mColour.getD 0 nullSurface).buffer).isSome = true) ∧
    (∀ (fbo : GLES2FrameBufferObject) (a : Nat) (t : GLSurfaceDesc) (m : Nat),
      a ≠ 0 → (fbo.mColour.getD 0 nullSurface).buffer = none →
        (bindSurface fbo a t m).2 = none ∧ (unbindSurface fbo a m).2 = none) := by
  refine ⟨?_, ?_, ?_, ?_⟩
  · intro fbo m h
    simp only [initialise]
    rw [h]
  · intro fbo a t m h
    simp only [bindSurface] at h ⊢
    split at h
    next hc =>
      rw [if_pos hc]
      exact hc
    next hc =>
      simp at h
  · intro fbo a m h
    simp only [unbindSurface] at h ⊢
    split at h
    next hc =>
      rw [if_pos hc]
      exact hc
    next hc =>
      simp at h
  · intro fbo a t m ha h0
    constructor
    · have hcon : ¬ ((((fbo.mColour.set a t).getD 0 nullSurface).buffer).isSome = true) := by
        rw [getD_zero_set_of_ne _ _ _ _ ha, h0]
        simp
      simp only [bindSurface]
      rw [if_neg hcon]
    · have hcon : ¬ ((((fbo.mColour.set a
          { buffer := none,
            zoffset := (fbo.mColour.getD a nullSurface).zoffset }).getD 0
            nullSurface).buffer).isSome = true) := by
        rw [getD_zero_set_of_ne _ _ _ _ ha, h0]
        simp
      simp only [unbindSurface]
      rw [if_neg hcon]

/-- Witness for `fbo_attachment0_special` on a fully unbound FBO. -/
theorem fbo_attachment0_special_witness :
    initialise ⟨List.replicate 8 nullSurface⟩ 8
        = Except.error FboError.attachment0Missing ∧
    (bindSurface ⟨List.replicate 8 nullSurface⟩ 1 nullSurface 8).2 = none :=
  ⟨fbo_attachment0_special.1 ⟨List.replicate 8 nullSurface⟩ 8 rfl,
   (fbo_attachment0_special.2.2.2 ⟨List.replicate 8 nullSurface⟩ 1 nullSurface 8
      (by decide) rfl).1⟩

theorem mapLookup_append_of_none {α : Type} (m : List (IdString × α)) (k : IdString)
    (v : α) (h : mapLookup m k = none) : mapLookup (m ++ [(k, v)]) k = some v := by
  induction m with
  | nil => simp [mapLookup]
  | cons p rest ih =>
    obtain ⟨k1, v1⟩ := p
    rw [mapLookup] at h
    rw [List.cons_append, mapLookup]
    by_cases hk : k1 = k
    · rw [if_pos hk] at h
      exact Option.noConfusion h
    · rw [if_neg hk] at h
      rw [if_neg hk]
      exact ih h

theorem topoSortAux_perm (edges : List (IdString × IdString)) :
    ∀ (fuel : Nat) (remaining ord : List IdString),
      topoSortAux edges fuel remaining = some ord → ord.Perm remaining := by
  intro fuel
  induction fuel with
  | zero =>
    intro remaining ord h
    rw [topoSortAux] at h
    split at h
    · rename_i he
      injection h with h
      subst h
      rw [List.isEmpty_iff.mp he]
    · exact Option.noConfusion h
  | succ fuel ih =>
    intro remaining ord h
    rw [topoSortAux] at h
    split at h
    · rename_i he
      injection h with h
      subst h
      rw [List.isEmpty_iff.mp he]
    · split at h
      · exact Option.noConfusion h
      · rename_i n hfind
        rw [Option.map_eq_some'] at h
        obtain ⟨ord2, hrec, hcons⟩ := h
        subst hcons
        have hn : n ∈ remaining := List.mem_of_find?_eq_some hfind
        exact ((ih _ _ hrec).cons n).trans (List.perm_cons_erase hn).symm

theorem topoSortAux_respects (edges : List (IdString × IdString)) :
    ∀ (fuel : Nat) (remaining ord : List IdString),
      topoSortAux edges fuel remaining = some ord →
      ∀ a b, (a, b) ∈ edges → a ∈ remaining → b ∈ remaining → [a, b].Sublist ord := by
  intro fuel
  induction fuel with
  | zero =>
    intro remaining ord h a b hab ha hb
    rw [topoSortAux] at h
    split at h
    · rename_i he
      rw [List.isEmpty_iff.mp he] at ha
      exact absurd ha (List.not_mem_nil a)
    · exact Option.noConfusion h
  | succ fuel ih =>
    intro remaining ord h a b hab ha hb
    rw [topoSortAux] at h
    split at h
    · rename_i he
      rw [List.isEmpty_iff.mp he] at ha
      exact absurd ha (List.not_mem_nil a)
    · split at h
      · exact Option.noConfusion h
      · rename_i n hfind
        rw [Option.map_eq_some'] at h
        obtain ⟨ord2, hrec, hcons⟩ := h
        subst hcons
        have hready0 : readyNode remaining edges n = true := List.find?_some hfind
        have hready : ∀ e ∈ edges, ¬(e.2 = n ∧ e.1 ∈ remaining) :=
          of_decide_eq_true hready0
        have hbn : b ≠ n := fun hbn => hready (a, b) hab ⟨hbn, ha⟩
        by_cases han : a = n
        · subst han
          have hb2 : b ∈ remaining.erase a := (List.mem_erase_of_ne hbn).mpr hb
          have hb3 : b ∈ ord2 :=
            (topoSortAux_perm edges fuel (remaining.erase a) ord2 hrec).mem_iff.mpr hb2
          exact List.Sublist.cons₂ a (List.singleton_sublist.mpr hb3)
        · have ha2 : a ∈ remaining.erase n := (List.mem_erase_of_ne han).mpr ha
          have hb2 : b ∈ remaining.erase n := (List.mem_erase_of_ne hbn).mpr hb
          exact List.Sublist.cons n (ih _ _ hrec a b hab ha2 hb2)

theorem topoSortAux_none_of_cyclic (edges : List (IdString × IdString)) :
    ∀ (fuel : Nat) (remaining S : List IdString), S ≠ [] →
      (∀ x ∈ S, x ∈ remaining) → (∀ y ∈ S, ∃ a ∈ S, (a, y) ∈ edges) →
      topoSortAux edges fuel remaining = none := by
  intro fuel
  induction fuel with
  | zero =>
    intro remaining S hne hsub hcyc
    have hrem : ¬ (remaining.isEmpty = true) := by
      intro he
      obtain ⟨x, hx⟩ := List.exists_mem_of_ne_nil S hne
      have hx2 := hsub x hx
      rw [List.isEmpty_iff.mp he] at hx2
      exact absurd hx2 (List.not_mem_nil x)
    rw [topoSortAux, if_neg hrem]
  | succ fuel ih =>
    intro remaining S hne hsub hcyc
    have hrem : ¬ (remaining.isEmpty = true) := by
      intro he
      obtain ⟨x, hx⟩ := List.exists_mem_of_ne_nil S hne
      have hx2 := hsub x hx
      rw [List.isEmpty_iff.mp he] at hx2
      exact absurd hx2 (List.not_mem_nil x)
    rw [topoSortAux, if_neg hrem]
    cases hfind : remaining.find? (readyNode remaining edges) with
    | none => rfl
    | some n =>
      have hready0 : readyNode remaining edges n = true := List.find?_some hfind
      have hready : ∀ e ∈ edges, ¬(e.2 = n ∧ e.1 ∈ remaining) :=
        of_decide_eq_true hready0
      have hnS : n ∉ S := by
        intro hn
        obtain ⟨a, haS, hedge⟩ := hcyc n hn
        exact hready (a, n) hedge ⟨rfl, hsub a haS⟩
      have hsub2 : ∀ x ∈ S, x ∈ remaining.erase n := by
        intro x hx
        have hxn : x ≠ n := fun e => hnS (e ▸ hx)
        exact (List.mem_erase_of_ne hxn).mpr (hsub x hx)
      show Option.map (fun ord => n :: ord) (topoSortAux edges fuel (remaining.erase n)) = none
      rw [ih (remaining.erase n) S hne hsub2 hcyc]
      rfl

theorem topoSort_perm (nodes : List IdString) (edges : List (IdString × IdString))
    (ord : List IdString) (h : topoSort nodes edges = some ord) : ord.Perm nodes :=
  topoSortAux_perm edges nodes.length nodes ord h

theorem topoSort_respects (nodes : List IdString) (edges : List (IdString × IdString))
    (ord : List IdString) (h : topoSort nodes edges = some ord) :
    ∀ a b, (a, b) ∈ edges → a ∈ nodes → b ∈ nodes → [a, b].Sublist ord :=
  topoSortAux_respects edges nodes.length nodes ord h

theorem topoSort_none_of_cyclic (nodes : List IdString) (edges : List (IdString × IdString))
    (S : List IdString) (hne : S ≠ []) (hsub : ∀ x ∈ S, x ∈ nodes)
    (hcyc : ∀ y ∈ S, ∃ a ∈ S, (a, y) ∈ edges) : topoSort nodes edges = none :=
  topoSortAux_none_of_cyclic edges nodes.length nodes S hne hsub hcyc

theorem mem_swapTargetsAux (t : Nat) :
    ∀ (l seen : List Nat), t ∈ swapTargetsAux seen l ↔ t ∈ l ∧ t ∉ seen := by
  intro l
  induction l with
  | nil =>
    intro seen
    simp [swapTargetsAux]
  | cons a rest ih =>
    intro seen
    by_cases ha : a ∈ seen
    · rw [swapTargetsAux, if_pos ha, ih]
      simp only [List.mem_cons]
      constructor
      · rintro ⟨h1, h2⟩
        exact ⟨Or.inr h1, h2⟩
      · rintro ⟨h1 | h1, h2⟩
        · subst h1
          exact absurd ha h2
        · exact ⟨h1, h2⟩
    · rw [swapTargetsAux, if_neg ha]
      simp only [List.mem_cons, ih]
      constructor
      · rintro (h1 | ⟨h1, h2⟩)
        · subst h1
          exact ⟨Or.inl rfl, ha⟩
        · exact ⟨Or.inr h1, fun hc => h2 (Or.inr hc)⟩
      · rintro ⟨h1 | h1, h2⟩
        · exact Or.inl h1
        · by_cases hta : t = a
          · exact Or.inl hta
          · exact Or.inr ⟨h1, fun hc => hc.elim hta h2⟩

theorem nodup_swapTargetsAux : ∀ (l seen : List Nat), (swapTargetsAux seen l).Nodup := by
  intro l
  induction l with
  | nil =>
    intro seen
    simp [swapTargetsAux]
  | cons a rest ih =>
    intro seen
    by_cases ha : a ∈ seen
    · rw [swapTargetsAux, if_pos ha]
      exact ih seen
    · rw [swapTargetsAux, if_neg ha]
      refine List.nodup_cons.mpr ⟨?_, ih (a :: seen)⟩
      intro hc
      exact ((mem_swapTargetsAux a rest (a :: seen)).mp hc).2 (List.mem_cons_self a seen)

theorem getNodeDefinition_of_lookup (s : CompositorManager2) (n : IdString)
    (d : CompositorNodeDef) (h : mapLookup s.mNodeDefinitions n = some d) :
    getNodeDefinition s n = Except.ok d := by
  unfold getNodeDefinition
  rw [h]

theorem getShadowNodeDefinition_of_lookup (s : CompositorManager2) (n : IdString)
    (d : CompositorShadowNodeDef) (h : mapLookup s.mShadowNodeDefs n = some d) :
    getShadowNodeDefinition s n = Except.ok d := by
  unfold getShadowNodeDefinition
  rw [h]

theorem getWorkspaceDefinition_of_lookup (s : CompositorManager2) (n : IdString)
    (d : CompositorWorkspaceDef) (h : mapLookup s.mWorkspaceDefs n = some d) :
    getWorkspaceDefinition s n = Except.ok d := by
  unfold getWorkspaceDefinition
  rw [h]

theorem buildWorkspace_ok (wdef : CompositorWorkspaceDef) (ft : Nat) (b : Bool)
    (ws : CompositorWorkspace) (h : buildWorkspace wdef ft b = Except.ok ws) :
    topoSort wdef.nodes (connectionEdges wdef.connections) = some ws.execOrder ∧
    ws.enabled = b ∧
    ∀ c ∈ wdef.connections, c.srcNode ∈ wdef.nodes ∧ c.dstNode ∈ wdef.nodes := by
  unfold buildWorkspace at h
  split at h
  · exact Except.noConfusion h
  · rename_i ord hts
    split at h
    · rename_i hall
      injection h with h
      subst h
      refine ⟨hts, rfl, ?_⟩
      intro c hc
      exact of_decide_eq_true (List.all_eq_true.mp hall c hc)
    · exact Except.noConfusion h

theorem addWorkspace_def_some (s : CompositorManager2) (ft : Nat) (dn : IdString)
    (b : Bool) (wdef : CompositorWorkspaceDef)
    (hdef : mapLookup s.mWorkspaceDefs dn = some wdef) :
    addWorkspace s ft dn b =
      match buildWorkspace wdef ft b with
      | Except.error e => (s, Except.error e)
      | Except.ok ws => ({ s with mWorkspaces := s.mWorkspaces ++ [ws] }, Except.ok ws) := by
  unfold addWorkspace
  rw [hdef]

theorem addWorkspace_ok (s : CompositorManager2) (ft : Nat) (dn : IdString) (b : Bool)
    (s2 : CompositorManager2) (ws : CompositorWorkspace) (wdef : CompositorWorkspaceDef)
    (hdef : mapLookup s.mWorkspaceDefs dn = some wdef)
    (h : addWorkspace s ft dn b = (s2, Except.ok ws)) :
    buildWorkspace wdef ft b = Except.ok ws ∧ s2.mWorkspaces = s.mWorkspaces ++ [ws] := by
  rw [addWorkspace_def_some s ft dn b wdef hdef] at h
  split at h
  · rename_i e heq
    rw [Prod.mk.injEq] at h
    exact absurd h.2 (fun hc => Except.noConfusion hc)
  · rename_i ws2 heq
    rw [Prod.mk.injEq] at h
    obtain ⟨h1, h2⟩ := h
    injection h2 with h2
    subst h2
    subst h1
    exact ⟨heq, rfl⟩

/-- C1: for a workspace instance built by `addWorkspace` from an acyclic
connection graph, the frame execution produced by `_update` runs the node
instances in a topological order of the connection DAG: the frame's trace
contains the workspace's node sequence, that sequence runs each declared node
exactly once (a permutation of the declared nodes), and for every declared
connection the source node executes before the destination node. -/
theorem ogre_update_runs_topological (s s2 : CompositorManager2) (ft : Nat)
    (dn : IdString) (wdef : CompositorWorkspaceDef) (ws : CompositorWorkspace)
    (hdef : mapLookup s.mWorkspaceDefs dn = some wdef)
    (hadd : addWorkspace s ft dn true = (s2, Except.ok ws)) :
    updateWorkspace ws ∈ (_update s2).2 ∧
    updateWorkspace ws = ws.execOrder ∧
    ws.execOrder.Perm wdef.nodes ∧
    ∀ c ∈ wdef.connections, [c.srcNode, c.dstNode].Sublist ws.execOrder := by
  obtain ⟨hbuild, hws⟩ := addWorkspace_ok s ft dn true s2 ws wdef hdef hadd
  obtain ⟨hts, hen, hconn⟩ := buildWorkspace_ok wdef ft true ws hbuild
  refine ⟨?_, ?_, ?_, ?_⟩
  · have h2 : (_update s2).2 = s2.mWorkspaces.map updateWorkspace := rfl
    rw [h2, hws, List.map_append]
    simp
  · rw [updateWorkspace, if_pos hen]
  · exact topoSort_perm _ _ _ hts
  · intro c hc
    exact topoSort_respects _ _ _ hts c.srcNode c.dstNode
      (List.mem_map_of_mem _ hc) (hconn c hc).1 (hconn c hc).2

/-- C2: building a workspace instance from a definition whose connection graph
contains a cycle (a nonempty set `S` of declared nodes each of which is fed by
another member of `S`) fails with `CyclicGraphError`, and the failure is
atomic: the returned manager state is exactly the input state, so no partial
workspace instance joins `mWorkspaces`. -/
theorem ogre_addWorkspace_cyclic_atomic (s : CompositorManager2) (ft : Nat)
    (dn : IdString) (b : Bool) (wdef : CompositorWorkspaceDef) (S : List IdString)
    (hdef : mapLookup s.mWorkspaceDefs dn = some wdef)
    (hne : S ≠ [])
    (hsub : ∀ x ∈ S, x ∈ wdef.nodes)
    (hcyc : ∀ y ∈ S, ∃ a ∈ S, (a, y) ∈ connectionEdges wdef.connections) :
    addWorkspace s ft dn b = (s, Except.error CompositorError.cyclicGraphError) := by
  have hbuild : buildWorkspace wdef ft b
      = Except.error CompositorError.cyclicGraphError := by
    unfold buildWorkspace
    rw [topoSort_none_of_cyclic wdef.nodes (connectionEdges wdef.connections) S hne hsub hcyc]
  rw [addWorkspace_def_some s ft dn b wdef hdef, hbuild]

/-- C3: after the frame's workspace updates, `_swapAllFinalTargets` swaps each
distinct final render target exactly once: every target owned by at least one
live workspace occurs exactly once in the swap list, even when several
workspaces share it by identity. -/
theorem ogre_swapAllFinalTargets_once (s : CompositorManager2) (t : Nat)
    (h : ∃ ws ∈ s.mWorkspaces, ws.finalTarget = t) :
    (_swapAllFinalTargets s).count t = 1 := by
  have hmem : t ∈ _swapAllFinalTargets s := by
    unfold _swapAllFinalTargets
    rw [mem_swapTargetsAux]
    refine ⟨?_, List.not_mem_nil t⟩
    obtain ⟨ws, hws, hft⟩ := h
    subst hft
    exact List.mem_map_of_mem _ hws
  exact List.count_eq_one_of_mem (nodup_swapTargetsAux _ _) hmem

/-- C4: definition validation fails with `ReservedNameError` precisely when
some declared local-texture or channel name begins with the reserved
`"global_"` prefix, and succeeds precisely when no declared name carries the
prefix — a name without the prefix never triggers the error. -/
theorem ogre_reserved_prefix_iff (d : CompositorNodeDef) :
    (validateNodeDefNames d = Except.error CompositorError.reservedName ↔
      ∃ n ∈ declaredNames d, "global_".data.isPrefixOf n.data = true) ∧
    (validateNodeDefNames d = Except.ok () ↔
      ∀ n ∈ declaredNames d, "global_".data.isPrefixOf n.data = false) := by
  unfold validateNodeDefNames
  by_cases h : (declaredNames d).any isReservedName = true
  · rw [if_pos h]
    obtain ⟨n, hn, hpre⟩ := List.any_eq_true.mp h
    constructor
    · exact iff_of_true rfl ⟨n, hn, hpre⟩
    · apply iff_of_false
      · intro hc
        exact Except.noConfusion hc
      · intro hall
        have hp2 : isReservedName n = false := hall n hn
        rw [hp2] at hpre
        exact Bool.noConfusion hpre
  · rw [if_neg h]
    constructor
    · apply iff_of_false
      · intro hc
        exact Except.noConfusion hc
      · rintro ⟨n, hn, hpre⟩
        exact h (List.any_eq_true.mpr ⟨n, hn, hpre⟩)
    · refine iff_of_true rfl ?_
      intro n hn
      rw [Bool.eq_false_iff]
      intro hp
      exact h (List.any_eq_true.mpr ⟨n, hn, hp⟩)

/-- C5: for each definition kind (node, shadow node, workspace), adding a
fresh name and immediately getting it returns exactly the definition object
the add stored in the registry. -/
theorem ogre_add_then_get_definition (s : CompositorManager2) (n : IdString)
    (h1 : mapLookup s.mNodeDefinitions n = none)
    (h2 : mapLookup s.mShadowNodeDefs n = none)
    (h3 : mapLookup s.mWorkspaceDefs n = none) :
    (∃ s2 d, addNodeDefinition s n = Except.ok (s2, d) ∧
      getNodeDefinition s2 n = Except.ok d) ∧
    (∃ s2 d, addShadowNodeDefinition s n = Except.ok (s2, d) ∧
      getShadowNodeDefinition s2 n = Except.ok d) ∧
    (∃ s2 d, addWorkspaceDefinition s n = Except.ok (s2, d) ∧
      getWorkspaceDefinition s2 n = Except.ok d) := by
  refine ⟨?_, ?_, ?_⟩
  · refine ⟨{ s with mNodeDefinitions := s.mNodeDefinitions ++ [(n, newNodeDef n)] },
      newNodeDef n, ?_, ?_⟩
    · unfold addNodeDefinition
      rw [h1]
    · exact getNodeDefinition_of_lookup _ _ _ (mapLookup_append_of_none _ _ _ h1)
  · refine ⟨{ s with
        mShadowNodeDefs := s.mShadowNodeDefs ++ [(n, newShadowNodeDef n)],
        mUnfinishedShadowNodes := s.mUnfinishedShadowNodes ++ [n] },
      newShadowNodeDef n, ?_, ?_⟩
    · unfold addShadowNodeDefinition
      rw [h2]
    · exact getShadowNodeDefinition_of_lookup _ _ _ (mapLookup_append_of_none _ _ _ h2)
  · refine ⟨{ s with mWorkspaceDefs := s.mWorkspaceDefs ++ [(n, newWorkspaceDef n)] },
      newWorkspaceDef n, ?_, ?_⟩
    · unfold addWorkspaceDefinition
      rw [h3]
    · exact getWorkspaceDefinition_of_lookup _ _ _ (mapLookup_append_of_none _ _ _ h3)

/-- C6: for each definition kind, adding a name already present in that
kind's map fails with `DuplicateNameError`, and the definition previously
stored under the name is still retrievable unchanged. -/
theorem ogre_add_duplicate_name_fails (s : CompositorManager2) (n : IdString) :
    (∀ d, mapLookup s.mNodeDefinitions n = some d →
      addNodeDefinition s n = Except.error CompositorError.duplicateName ∧
      getNodeDefinition s n = Except.ok d) ∧
    (∀ d, mapLookup s.mShadowNodeDefs n = some d →
      addShadowNodeDefinition s n = Except.error CompositorError.duplicateName ∧
      getShadowNodeDefinition s n = Except.ok d) ∧
    (∀ d, mapLookup s.mWorkspaceDefs n = some d →
      addWorkspaceDefinition s n = Except.error CompositorError.duplicateName ∧
      getWorkspaceDefinition s n = Except.ok d) := by
  refine ⟨?_, ?_, ?_⟩
  · intro d h
    refine ⟨?_, getNodeDefinition_of_lookup _ _ _ h⟩
    unfold addNodeDefinition
    rw [h]
  · intro d h
    refine ⟨?_, getShadowNodeDefinition_of_lookup _ _ _ h⟩
    unfold addShadowNodeDefinition
    rw [h]
  · intro d h
    refine ⟨?_, getWorkspaceDefinition_of_lookup _ _ _ h⟩
    unfold addWorkspaceDefinition
    rw [h]

/-- C7: `removeAllWorkspaces` leaves the frame counter unchanged, and one
subsequent `_update` increments `getFrameCount` by exactly one. -/
theorem ogre_removeAllWorkspaces_frameCount (s : CompositorManager2) :
    getFrameCount (removeAllWorkspaces s) = getFrameCount s ∧
    getFrameCount (_update (removeAllWorkspaces s)).1 = getFrameCount s + 1 :=
  ⟨rfl, rfl⟩

/-- C9: requesting the null shadow texture twice with the same pixel format
returns the same pooled handle, and the second request creates nothing — the
manager state after it is unchanged, so the texture is created lazily at most
once per format and shared. -/
theorem ogre_getNullShadowTexture_pooled (s : CompositorManager2) (format : Nat) :
    (getNullShadowTexture (getNullShadowTexture s format).1 format).2
      = (getNullShadowTexture s format).2 ∧
    (getNullShadowTexture (getNullShadowTexture s format).1 format).1
      = (getNullShadowTexture s format).1 := by
  cases hl : mapLookup s.mNullTextureList format with
  | some tex =>
    have e1 : getNullShadowTexture s format = (s, tex) := by
      unfold getNullShadowTexture
      rw [hl]
    have e2 : (getNullShadowTexture s format).1 = s := by
      rw [e1]
    constructor
    · rw [e2]
    · rw [e2]
      exact e2
  | none =>
    have e1 : getNullShadowTexture s format =
        ({ s with
            mNullTextureList := s.mNullTextureList ++ [(format, s.nextTextureHandle)],
            nextTextureHandle := s.nextTextureHandle + 1 }, s.nextTextureHandle) := by
      unfold getNullShadowTexture
      rw [hl]
    have e3 : getNullShadowTexture
        { s with
            mNullTextureList := s.mNullTextureList ++ [(format, s.nextTextureHandle)],
            nextTextureHandle := s.nextTextureHandle + 1 } format
        = ({ s with
              mNullTextureList := s.mNullTextureList ++ [(format, s.nextTextureHandle)],
              nextTextureHandle := s.nextTextureHandle + 1 }, s.nextTextureHandle) := by
      unfold getNullShadowTexture
      rw [show mapLookup ({ s with
            mNullTextureList := s.mNullTextureList ++ [(format, s.nextTextureHandle)],
            nextTextureHandle := s.nextTextureHandle + 1 } :
              CompositorManager2).mNullTextureList format = some s.nextTextureHandle from
        mapLookup_append_of_none _ _ _ hl]
    have e2 : (getNullShadowTexture s format).1
        = { s with
            mNullTextureList := s.mNullTextureList ++ [(format, s.nextTextureHandle)],
            nextTextureHandle := s.nextTextureHandle + 1 } := by
      rw [e1]
    constructor
    · rw [e2, e3, e1]
    · rw [e2, e3]

/-- Witness for `ogre_update_runs_topological` on the concrete 1 → 2 → 3
workspace. -/
theorem ogre_update_runs_topological_witness :
    updateWorkspace wsABC ∈ (_update mgrABC2).2 ∧
    updateWorkspace wsABC = wsABC.execOrder ∧
    wsABC.execOrder.Perm wdefABC.nodes ∧
    ∀ c ∈ wdefABC.connections, [c.srcNode, c.dstNode].Sublist wsABC.execOrder :=
  ogre_update_runs_topological mgrABC mgrABC2 0 10 wdefABC wsABC rfl rfl

/-- Witness for `ogre_addWorkspace_cyclic_atomic` on the concrete 2-node
cycle. -/
theorem ogre_addWorkspace_cyclic_atomic_witness :
    addWorkspace mgrCyc 0 11 true
      = (mgrCyc, Except.error CompositorError.cyclicGraphError) :=
  ogre_addWorkspace_cyclic_atomic mgrCyc 0 11 true wdefCyc [1, 2] rfl
    (by decide) (by decide) (by decide)

/-- Witness for `ogre_swapAllFinalTargets_once`: the shared target 5 is
swapped exactly once. -/
theorem ogre_swapAllFinalTargets_once_witness :
    (_swapAllFinalTargets mgrShare).count 5 = 1 :=
  ogre_swapAllFinalTargets_once mgrShare 5 ⟨wsShare1, by decide, rfl⟩

/-- Witness for `ogre_reserved_prefix_iff` on `nodeDefGlobalTex`. -/
theorem ogre_reserved_prefix_iff_witness :
    validateNodeDefNames nodeDefGlobalTex
      = Except.error CompositorError.reservedName :=
  (ogre_reserved_prefix_iff nodeDefGlobalTex).1.mpr
    ⟨"global_myRT", by decide, by decide⟩

/-- Witness for `ogre_add_then_get_definition` at the empty manager and the
fresh name 7. -/
theorem ogre_add_then_get_definition_witness :
    (∃ s2 d, addNodeDefinition emptyMgr 7 = Except.ok (s2, d) ∧
      getNodeDefinition s2 7 = Except.ok d) ∧
    (∃ s2 d, addShadowNodeDefinition emptyMgr 7 = Except.ok (s2, d) ∧
      getShadowNodeDefinition s2 7 = Except.ok d) ∧
    (∃ s2 d, addWorkspaceDefinition emptyMgr 7 = Except.ok (s2, d) ∧
      getWorkspaceDefinition s2 7 = Except.ok d) :=
  ogre_add_then_get_definition emptyMgr 7 rfl rfl rfl

/-- Witness for `ogre_add_duplicate_name_fails` at `mgrDefs` and name 7. -/
theorem ogre_add_duplicate_name_fails_witness :
    addNodeDefinition mgrDefs 7 = Except.error CompositorError.duplicateName ∧
    addShadowNodeDefinition mgrDefs 7 = Except.error CompositorError.duplicateName ∧
    addWorkspaceDefinition mgrDefs 7 = Except.error CompositorError.duplicateName :=
  ⟨((ogre_add_duplicate_name_fails mgrDefs 7).1 (newNodeDef 7) rfl).1,
   ((ogre_add_duplicate_name_fails mgrDefs 7).2.1 (newShadowNodeDef 7) rfl).1,
   ((ogre_add_duplicate_name_fails mgrDefs 7).2.2 (newWorkspaceDef 7) rfl).1⟩
